import Mathlib

/-!
Shallow embedding of the media-capture pipeline of the
`gemini_multimodal_api_websocket` demo client:
`LiveVideoManager`, `LiveScreenManager`, `LiveAudioInputManager`
(source file `part_000`) and the application wiring
(`startCameraCapture`, `startScreenCapture`, `newCameraSelected`, ...,
source file `part_001`).

State of each manager is passed explicitly.  Device acquisition
(`navigator.mediaDevices.getUserMedia` / `getDisplayMedia`) is the only
external call with an interesting outcome; each operation that performs an
acquisition takes the platform's response (`Except AcqError Nat`, the `Nat`
being the number of tracks of the granted stream) as an argument.
Streams that the code drops without stopping are kept in a ghost
`graveyard` list so that liveness of every stream ever acquired remains
observable.
-/

/-- Device identifiers are opaque strings in the source. -/
abbrev DeviceId := String

/-- Acquisition failure taxonomy, as surfaced by the browser. -/
inductive AcqError where
  | permissionDenied
  | deviceNotFound
  | deviceBusy
  deriving DecidableEq, Repr

/-- One constituent track of a media stream; `track.stop()` clears `live`. -/
structure MediaTrack where
  live : Bool
  deriving DecidableEq, Repr

/-- A hardware media stream handle: the device it was requested for
(`none` = platform default) and its tracks. -/
structure MediaStream where
  deviceId : Option DeviceId
  tracks : List MediaTrack
  deriving DecidableEq, Repr

namespace MediaStream

/-- A stream granted by the platform: all of its tracks are live. -/
def fresh (deviceId : Option DeviceId) (nTracks : Nat) : MediaStream :=
  ⟨deviceId, List.replicate nTracks ⟨true⟩⟩

/-- Effect of `stream.getTracks().forEach(track => track.stop())`. -/
def stopTracks (st : MediaStream) : MediaStream :=
  { st with tracks := st.tracks.map fun _ => ⟨false⟩ }

/-- A stream is live while any of its tracks is live. -/
def isLive (st : MediaStream) : Bool :=
  st.tracks.any (·.live)

/-- Number of live tracks of the stream. -/
def liveTracks (st : MediaStream) : Nat :=
  st.tracks.countP (·.live)

end MediaStream

/-- State shared by `LiveVideoManager` and `LiveScreenManager`: both
constructors set exactly the fields `videoElement.srcObject` binding,
`stream`, and `onNewFrame`; `graveyard` is the ghost list of streams the
manager acquired and no longer references, and `loops` counts the
self-rescheduling `captureFrames` chains that have been spawned. -/
structure VideoManagerState where
  stream : Option MediaStream
  srcObject : Option MediaStream
  onNewFrame : Bool
  graveyard : List MediaStream
  loops : Nat
  deriving DecidableEq, Repr

namespace VideoManagerState

/-- State set up by the constructor: no stream, no display binding,
no callback. -/
def init : VideoManagerState :=
  ⟨none, none, false, [], 0⟩

/-- State after the constructor but with a frame callback registered
(`manager.onNewFrame = ...` in the wiring file). -/
def initWithCallback : VideoManagerState :=
  ⟨none, none, true, [], 0⟩

/-- Number of live streams among all streams the manager ever acquired. -/
def liveStreamCount (s : VideoManagerState) : Nat :=
  s.graveyard.countP MediaStream.isLive +
    (match s.stream with
     | none => 0
     | some st => if st.isLive then 1 else 0)

/-- Total number of live tracks across every stream the manager ever
acquired. -/
def liveTrackCount (s : VideoManagerState) : Nat :=
  (s.graveyard.map MediaStream.liveTracks).sum +
    (match s.stream with
     | none => 0
     | some st => st.liveTracks)

/-- The manager's source is live if any stream it acquired is live. -/
def sourceLive (s : VideoManagerState) : Bool :=
  decide (0 < s.liveStreamCount)

/-- Quiescent state: nothing bound and nothing live (the constructor
state, and any state reached by a completed teardown). -/
def quiescent (s : VideoManagerState) : Prop :=
  s.stream = none ∧ s.liveStreamCount = 0

instance (s : VideoManagerState) : Decidable s.quiescent :=
  inferInstanceAs (Decidable (_ ∧ _))

end VideoManagerState

namespace LiveVideoManager

open VideoManagerState

/-- Body of `LiveVideoManager.startWebcam(deviceId)`.  `res` is the outcome
of `navigator.mediaDevices.getUserMedia(constraints)`.  On success the new
stream overwrites `this.stream` (without stopping a previously held
stream, which therefore moves to the ghost graveyard unmodified), is bound
to the display element, and `captureFrames()` spawns one more sampling
loop.  On failure the error is logged and rethrown with no state change. -/
def startWebcam (res : Except AcqError Nat) (deviceId : Option DeviceId)
    (s : VideoManagerState) : VideoManagerState × Option AcqError :=
  match res with
  | .error e => (s, some e)
  | .ok n =>
      let newStream := MediaStream.fresh deviceId n
      ({ s with
          stream := some newStream
          srcObject := some newStream
          graveyard :=
            match s.stream with
            | none => s.graveyard
            | some old => s.graveyard ++ [old]
          loops := s.loops + 1 },
       none)

/-- Body of `LiveVideoManager.stopWebcam()`: if a stream is held, stop all
of its tracks, clear the display binding and null the handle; otherwise do
nothing. -/
def stopWebcam (s : VideoManagerState) : VideoManagerState :=
  match s.stream with
  | none => s
  | some st =>
      { s with
          stream := none
          srcObject := none
          graveyard := s.graveyard ++ [st.stopTracks] }

/-- Body of `LiveVideoManager.updateWebcamDevice(deviceId)`:
`this.stopWebcam(); await this.startWebcam(deviceId)`. -/
def updateWebcamDevice (res : Except AcqError Nat) (deviceId : DeviceId)
    (s : VideoManagerState) : VideoManagerState × Option AcqError :=
  startWebcam res (some deviceId) (stopWebcam s)

end LiveVideoManager

namespace LiveScreenManager

/-- Body of `LiveScreenManager.startCapture()`.  `res` is the outcome of
`navigator.mediaDevices.getDisplayMedia({ video: true })`; no device id is
taken.  Mirrors `LiveVideoManager.startWebcam` otherwise. -/
def startCapture (res : Except AcqError Nat)
    (s : VideoManagerState) : VideoManagerState × Option AcqError :=
  match res with
  | .error e => (s, some e)
  | .ok n =>
      let newStream := MediaStream.fresh none n
      ({ s with
          stream := some newStream
          srcObject := some newStream
          graveyard :=
            match s.stream with
            | none => s.graveyard
            | some old => s.graveyard ++ [old]
          loops := s.loops + 1 },
       none)

/-- Body of `LiveScreenManager.stopCapture()`, written out from its own
source lines (which duplicate `stopWebcam`). -/
def stopCapture (s : VideoManagerState) : VideoManagerState :=
  match s.stream with
  | none => s
  | some st =>
      { s with
          stream := none
          srcObject := none
          graveyard := s.graveyard ++ [st.stopTracks] }

end LiveScreenManager

/-!
Frame sampling.  `captureFrames()` defines an inner closure `captureFrame`
that reads `videoElement.videoWidth` / `videoHeight`, and when both are
positive resizes the canvas, draws the current video frame into it,
encodes it with `canvas.toDataURL('image/jpeg')` and hands the result to
`onNewFrame` when one is registered; in every case it ends by
`requestAnimationFrame(captureFrame)`.  One invocation of the closure is
one tick.
-/

/-- What the video element reports on a given tick: its current intrinsic
dimensions and (abstractly) the current visual frame content. -/
structure VideoTickInput where
  videoWidth : Nat
  videoHeight : Nat
  content : Nat
  deriving DecidableEq, Repr

/-- The canvas element: its size attributes and what was last drawn into
it (`none` = never drawn). -/
structure Canvas where
  width : Nat
  height : Nat
  drawn : Option Nat
  deriving DecidableEq, Repr

/-- An encoded still image as produced by
`canvasElement.toDataURL('image/jpeg')`: the mime type and the canvas
contents it encodes. -/
structure EncodedFrame where
  mime : String
  width : Nat
  height : Nat
  drawn : Option Nat
  deriving DecidableEq, Repr

/-- Encoding of the canvas contents (`toDataURL('image/jpeg')`). -/
def toDataURL (c : Canvas) : EncodedFrame :=
  ⟨"image/jpeg", c.width, c.height, c.drawn⟩

/-- The tick is ready when the source reports strictly positive width and
height. -/
def tickReady (v : VideoTickInput) : Prop :=
  0 < v.videoWidth ∧ 0 < v.videoHeight

instance (v : VideoTickInput) : Decidable (tickReady v) :=
  inferInstanceAs (Decidable (_ ∧ _))

namespace LiveVideoManager

/-- One tick of the `captureFrame` closure of
`LiveVideoManager.captureFrames`: returns the updated canvas, the frames
delivered on this tick (through `onNewFrame` when registered), and whether
the closure rescheduled itself via `requestAnimationFrame`. -/
def captureFrame (v : VideoTickInput) (onNewFrame : Bool) (c : Canvas) :
    Canvas × List EncodedFrame × Bool :=
  if v.videoWidth > 0 && v.videoHeight > 0 then
    let c' : Canvas := ⟨v.videoWidth, v.videoHeight, some v.content⟩
    if onNewFrame then (c', [toDataURL c'], true) else (c', [], true)
  else
    (c, [], true)

/-- Driving the sampling loop over a sequence of ticks, collecting every
delivered frame in order. -/
def runTicks (ticks : List VideoTickInput) (onNewFrame : Bool) (c : Canvas) :
    Canvas × List EncodedFrame :=
  match ticks with
  | [] => (c, [])
  | v :: rest =>
      let (c', d, _) := captureFrame v onNewFrame c
      let (c'', ds) := runTicks rest onNewFrame c'
      (c'', d ++ ds)

/-- One display refresh with `n` concurrently running sampling loops: the
`captureFrame` closure of each loop runs once against the same video
frame, each drawing into the shared canvas and each delivering
independently. -/
def displayTick (v : VideoTickInput) (onNewFrame : Bool) :
    Nat → Canvas → Canvas × List EncodedFrame
  | 0, c => (c, [])
  | n + 1, c =>
      let (c', d, _) := captureFrame v onNewFrame c
      let (c'', ds) := displayTick v onNewFrame n c'
      (c'', d ++ ds)

end LiveVideoManager

namespace LiveScreenManager

/-- One tick of the `captureFrame` closure of
`LiveScreenManager.captureFrames`, written out from its own source lines
(which duplicate the webcam sampler). -/
def captureFrame (v : VideoTickInput) (onNewFrame : Bool) (c : Canvas) :
    Canvas × List EncodedFrame × Bool :=
  if v.videoWidth > 0 && v.videoHeight > 0 then
    let c' : Canvas := ⟨v.videoWidth, v.videoHeight, some v.content⟩
    if onNewFrame then (c', [toDataURL c'], true) else (c', [], true)
  else
    (c, [], true)

/-- Driving the screen sampling loop over a sequence of ticks. -/
def runTicks (ticks : List VideoTickInput) (onNewFrame : Bool) (c : Canvas) :
    Canvas × List EncodedFrame :=
  match ticks with
  | [] => (c, [])
  | v :: rest =>
      let (c', d, _) := captureFrame v onNewFrame c
      let (c'', ds) := runTicks rest onNewFrame c'
      (c'', d ++ ds)

end LiveScreenManager

/-!
Audio input.  `LiveAudioInputManager` holds `stream` and the
`onNewAudioRecordingChunk` callback; `processAudioStream()` builds an
audio graph with `createScriptProcessor(4096, 1, 1)` whose
`onaudioprocess` handler passes `event.inputBuffer.getChannelData(0)` to
the callback when one is registered.
-/

/-- Buffer size passed to `createScriptProcessor` in
`processAudioStream`. -/
def scriptProcessorBufferSize : Nat := 4096

/-- Number of input channels passed to `createScriptProcessor`. -/
def scriptProcessorInputChannels : Nat := 1

/-- A raw sample buffer (one channel of PCM samples). -/
abbrev AudioChunk := List Int

/-- An `onaudioprocess` event: the input buffer's channels, each a sample
buffer of the processor's configured size. -/
structure AudioProcessEvent where
  inputBuffer : List AudioChunk
  deriving DecidableEq, Repr

/-- The `inputBuffer.getChannelData(i)` accessor. -/
def AudioProcessEvent.getChannelData (e : AudioProcessEvent) (i : Nat) :
    AudioChunk :=
  e.inputBuffer.getD i []

/-- State of `LiveAudioInputManager`: the constructor sets `stream` and
the chunk callback; `graveyard` is the ghost list of dropped streams and
`graphs` counts `processAudioStream` invocations (audio graphs built). -/
structure AudioManagerState where
  stream : Option MediaStream
  onNewAudioRecordingChunk : Bool
  graveyard : List MediaStream
  graphs : Nat
  deriving DecidableEq, Repr

namespace AudioManagerState

/-- State set up by the `LiveAudioInputManager` constructor. -/
def init : AudioManagerState :=
  ⟨none, false, [], 0⟩

/-- Number of live streams among all streams the manager ever acquired. -/
def liveStreamCount (s : AudioManagerState) : Nat :=
  s.graveyard.countP MediaStream.isLive +
    (match s.stream with
     | none => 0
     | some st => if st.isLive then 1 else 0)

end AudioManagerState

namespace LiveAudioInputManager

/-- Body of `LiveAudioInputManager.connectMicrophone(deviceId)`.  `res` is
the outcome of `getUserMedia`; on success the stream handle is overwritten
(a previously held stream is dropped unstopped) and `processAudioStream()`
builds one more audio graph.  On failure the error is logged and
rethrown. -/
def connectMicrophone (res : Except AcqError Nat) (deviceId : Option DeviceId)
    (s : AudioManagerState) : AudioManagerState × Option AcqError :=
  match res with
  | .error e => (s, some e)
  | .ok n =>
      ({ s with
          stream := some (MediaStream.fresh deviceId n)
          graveyard :=
            match s.stream with
            | none => s.graveyard
            | some old => s.graveyard ++ [old]
          graphs := s.graphs + 1 },
       none)

/-- Body of `LiveAudioInputManager.disconnectMicrophone()`: stop every
track of the held stream and null the handle; no-op when no stream is
held. -/
def disconnectMicrophone (s : AudioManagerState) : AudioManagerState :=
  match s.stream with
  | none => s
  | some st =>
      { s with
          stream := none
          graveyard := s.graveyard ++ [st.stopTracks] }

/-- Body of `LiveAudioInputManager.updateMicrophoneDevice(deviceId)`:
`this.disconnectMicrophone(); await this.connectMicrophone(deviceId)`. -/
def updateMicrophoneDevice (res : Except AcqError Nat) (deviceId : DeviceId)
    (s : AudioManagerState) : AudioManagerState × Option AcqError :=
  connectMicrophone res (some deviceId) (disconnectMicrophone s)

/-- The `onaudioprocess` handler installed by `processAudioStream`: when a
chunk callback is registered it is invoked with channel 0 of the event's
input buffer; otherwise the chunk is dropped. -/
def onaudioprocess (cb : Bool) (e : AudioProcessEvent) : List AudioChunk :=
  if cb then [e.getChannelData 0] else []

/-- Chunk deliveries over a sequence of audio-process events, in the order
the platform fires them. -/
def runAudioEvents (cb : Bool) (events : List AudioProcessEvent) :
    List AudioChunk :=
  match events with
  | [] => []
  | e :: rest => onaudioprocess cb e ++ runAudioEvents cb rest

end LiveAudioInputManager

/-!
Application wiring (source file `part_001`): a single `liveVideoManager`
and `liveScreenManager` share the page's video and canvas elements.
`startCameraCapture` stops the screen capture and then starts the webcam;
`startScreenCapture` stops the webcam and then starts the screen capture;
`newCameraSelected` switches the webcam device without touching the
screen manager.
-/

/-- Combined state of the two video-source managers of the application. -/
structure AppState where
  cam : VideoManagerState
  screen : VideoManagerState
  deriving DecidableEq, Repr

/-- Application state after page load: both managers constructed and given
their `onNewFrame` callbacks. -/
def appInit : AppState :=
  ⟨VideoManagerState.initWithCallback, VideoManagerState.initWithCallback⟩

/-- Body of `startCameraCapture()`:
`liveScreenManager.stopCapture(); liveVideoManager.startWebcam();`
(the returned promise is not awaited; a rejection leaves the camera
manager unchanged). -/
def startCameraCapture (res : Except AcqError Nat) (s : AppState) : AppState :=
  { cam := (LiveVideoManager.startWebcam res none s.cam).1
    screen := LiveScreenManager.stopCapture s.screen }

/-- Body of `startScreenCapture()`:
`liveVideoManager.stopWebcam(); liveScreenManager.startCapture();`. -/
def startScreenCapture (res : Except AcqError Nat) (s : AppState) : AppState :=
  { cam := LiveVideoManager.stopWebcam s.cam
    screen := (LiveScreenManager.startCapture res s.screen).1 }

/-- Body of `newCameraSelected()`:
`liveVideoManager.updateWebcamDevice(cameraSelect.value)` — the screen
manager is not touched. -/
def newCameraSelected (res : Except AcqError Nat) (deviceId : DeviceId)
    (s : AppState) : AppState :=
  { cam := (LiveVideoManager.updateWebcamDevice res deviceId s.cam).1
    screen := s.screen }

/-- Video-related user actions handled by the wiring, each carrying the
platform's acquisition response where one is requested. -/
inductive AppAction where
  | cameraBtn (res : Except AcqError Nat)
  | screenBtn (res : Except AcqError Nat)
  | cameraSelect (res : Except AcqError Nat) (deviceId : DeviceId)
  deriving Repr

/-- One coordinator step. -/
def appStep (a : AppAction) (s : AppState) : AppState :=
  match a with
  | .cameraBtn res => startCameraCapture res s
  | .screenBtn res => startScreenCapture res s
  | .cameraSelect res id => newCameraSelected res id s

/-- Running a sequence of coordinator actions from a state. -/
def appRun (acts : List AppAction) (s : AppState) : AppState :=
  match acts with
  | [] => s
  | a :: rest => appRun rest (appStep a s)

/-- Reachability of application states from the page-load state under the
video-related user actions. -/
inductive AppReachable : AppState → Prop where
  | init : AppReachable appInit
  | step {s : AppState} (a : AppAction) :
      AppReachable s → AppReachable (appStep a s)

/-- Button-driven actions (the two capture buttons, as opposed to the
device-selection handler). -/
def AppAction.isBtn : AppAction → Bool
  | .cameraBtn _ => true
  | .screenBtn _ => true
  | .cameraSelect _ _ => false

/-!
Operation sequences on a single `LiveVideoManager` instance, for stating
lifecycle properties over arbitrary interleavings of its methods.
-/

/-- One public operation of `LiveVideoManager`, carrying the platform's
acquisition response where one is requested. -/
inductive CamOp where
  | startOp (res : Except AcqError Nat) (deviceId : Option DeviceId)
  | stopOp
  | updateOp (res : Except AcqError Nat) (deviceId : DeviceId)
  deriving Repr

/-- Effect of one operation on the manager state (a rejected promise
leaves the state as it was at the throw). -/
def camStep : CamOp → VideoManagerState → VideoManagerState
  | .startOp res id, s => (LiveVideoManager.startWebcam res id s).1
  | .stopOp, s => LiveVideoManager.stopWebcam s
  | .updateOp res id, s => (LiveVideoManager.updateWebcamDevice res id s).1

/-- Running a sequence of operations left to right. -/
def runCamOps : List CamOp → VideoManagerState → VideoManagerState
  | [], s => s
  | op :: rest, s => runCamOps rest (camStep op s)

/-- Number of sampling loops the operation spawns: one per successful
acquisition (`captureFrames()` runs on every success path). -/
def CamOp.startsLoop : CamOp → Nat
  | .startOp (.ok _) _ => 1
  | .updateOp (.ok _) _ => 1
  | _ => 0

/-- Number of successful starts in an operation sequence. -/
def successfulStarts (ops : List CamOp) : Nat :=
  (ops.map CamOp.startsLoop).sum

/-- Operations that never acquire on top of a held stream: `stop`, and
the stop-then-start switch `updateOp`.  A raw `startOp` issued on a
running manager is the unsafe case. -/
def CamOp.safe : CamOp → Bool
  | .startOp _ _ => false
  | .stopOp => true
  | .updateOp _ _ => true

/-- Every stream the manager has dropped is fully torn down. -/
def VideoManagerState.graveyardDead (s : VideoManagerState) : Bool :=
  s.graveyard.all fun st => !st.isLive

/-- Every stream the audio manager has dropped is fully torn down. -/
def AudioManagerState.graveyardDead (s : AudioManagerState) : Bool :=
  s.graveyard.all fun st => !st.isLive

/-- One public operation of `LiveScreenManager`: a raw start, a stop, or
the teardown-preceded acquisition (stop then start — the screen
counterpart of a device switch, as the coordinator performs it). -/
inductive ScreenOp where
  | startOp (res : Except AcqError Nat)
  | stopOp
  | switchOp (res : Except AcqError Nat)
  deriving Repr

/-- Effect of one screen-manager operation on its state. -/
def screenStep : ScreenOp → VideoManagerState → VideoManagerState
  | .startOp res, s => (LiveScreenManager.startCapture res s).1
  | .stopOp, s => LiveScreenManager.stopCapture s
  | .switchOp res, s =>
      (LiveScreenManager.startCapture res (LiveScreenManager.stopCapture s)).1

/-- Running a sequence of screen-manager operations left to right. -/
def runScreenOps : List ScreenOp → VideoManagerState → VideoManagerState
  | [], s => s
  | op :: rest, s => runScreenOps rest (screenStep op s)

/-- Screen operations that never acquire on top of a held stream. -/
def ScreenOp.safe : ScreenOp → Bool
  | .startOp _ => false
  | .stopOp => true
  | .switchOp _ => true

/-- One public operation of `LiveAudioInputManager`, carrying the
platform's acquisition response where one is requested. -/
inductive AudioOp where
  | connectOp (res : Except AcqError Nat) (deviceId : Option DeviceId)
  | stopOp
  | updateOp (res : Except AcqError Nat) (deviceId : DeviceId)
  deriving Repr

/-- Effect of one audio-manager operation on its state. -/
def audioStep : AudioOp → AudioManagerState → AudioManagerState
  | .connectOp res id, s => (LiveAudioInputManager.connectMicrophone res id s).1
  | .stopOp, s => LiveAudioInputManager.disconnectMicrophone s
  | .updateOp res id, s =>
      (LiveAudioInputManager.updateMicrophoneDevice res id s).1

/-- Running a sequence of audio-manager operations left to right. -/
def runAudioOps : List AudioOp → AudioManagerState → AudioManagerState
  | [], s => s
  | op :: rest, s => runAudioOps rest (audioStep op s)

/-- Audio operations that never acquire on top of a held stream: `stop`
and the disconnect-then-connect device switch. -/
def AudioOp.safe : AudioOp → Bool
  | .connectOp _ _ => false
  | .stopOp => true
  | .updateOp _ _ => true

/-!
Helper lemmas about the embedded operations.
-/

theorem MediaStream.stopTracks_isLive (st : MediaStream) :
    st.stopTracks.isLive = false := by
  simp [MediaStream.stopTracks, MediaStream.isLive]

theorem MediaStream.stopTracks_liveTracks (st : MediaStream) :
    st.stopTracks.liveTracks = 0 := by
  simp [MediaStream.stopTracks, MediaStream.liveTracks]

theorem MediaStream.liveTracks_eq_zero (st : MediaStream)
    (h : st.isLive = false) : st.liveTracks = 0 := by
  rw [MediaStream.liveTracks, List.countP_eq_zero]
  intro t ht
  simp only [MediaStream.isLive, List.any_eq_false] at h
  exact h t ht

theorem LiveVideoManager.stopWebcam_stream (s : VideoManagerState) :
    (LiveVideoManager.stopWebcam s).stream = none := by
  cases h : s.stream <;> simp [LiveVideoManager.stopWebcam, h]

/-- The display binding always mirrors the stream handle: the constructor
clears both, every success path of `startWebcam` sets both to the new
stream, and `stopWebcam` clears both. -/
def VideoManagerState.bindingConsistent (s : VideoManagerState) : Prop :=
  s.srcObject = s.stream

instance (s : VideoManagerState) : Decidable s.bindingConsistent :=
  inferInstanceAs (Decidable (_ = _))

theorem LiveVideoManager.stopWebcam_srcObject (s : VideoManagerState)
    (h : s.bindingConsistent) :
    (LiveVideoManager.stopWebcam s).srcObject = none := by
  cases hs : s.stream with
  | none =>
      rw [VideoManagerState.bindingConsistent, hs] at h
      simp [LiveVideoManager.stopWebcam, hs, h]
  | some st => simp [LiveVideoManager.stopWebcam, hs]

theorem countP_isLive_eq_zero (g : List MediaStream)
    (h : (g.all fun st => !st.isLive) = true) :
    g.countP MediaStream.isLive = 0 := by
  rw [List.countP_eq_zero]
  intro st hst
  have := List.all_eq_true.mp h st hst
  simp_all

theorem tickReady_cond_true (v : VideoTickInput) (h : tickReady v) :
    (v.videoWidth > 0 && v.videoHeight > 0) = true := by
  obtain ⟨h1, h2⟩ := h
  simp [h1, h2]

theorem tickReady_cond_false (v : VideoTickInput) (h : ¬ tickReady v) :
    (v.videoWidth > 0 && v.videoHeight > 0) = false := by
  rw [tickReady, not_and_or, Nat.not_lt, Nat.not_lt] at h
  rcases h with h | h <;> simp [Nat.le_zero.mp h]

theorem LiveVideoManager.captureFrame_not_ready (v : VideoTickInput)
    (cb : Bool) (c : Canvas) (h : ¬ tickReady v) :
    LiveVideoManager.captureFrame v cb c = (c, [], true) := by
  rw [LiveVideoManager.captureFrame, tickReady_cond_false v h]
  rfl

theorem LiveVideoManager.captureFrame_ready (v : VideoTickInput)
    (c : Canvas) (h : tickReady v) :
    LiveVideoManager.captureFrame v true c =
      (⟨v.videoWidth, v.videoHeight, some v.content⟩,
       [toDataURL ⟨v.videoWidth, v.videoHeight, some v.content⟩], true) := by
  rw [LiveVideoManager.captureFrame, tickReady_cond_true v h]
  rfl

theorem LiveVideoManager.captureFrame_no_callback (v : VideoTickInput)
    (c : Canvas) :
    LiveVideoManager.captureFrame v false c =
      ((if v.videoWidth > 0 && v.videoHeight > 0 then
          ⟨v.videoWidth, v.videoHeight, some v.content⟩ else c),
       [], true) := by
  rw [LiveVideoManager.captureFrame]
  by_cases h : (v.videoWidth > 0 && v.videoHeight > 0) = true
  · rw [if_pos h, if_pos h]
    rfl
  · rw [if_neg h, if_neg h]

theorem LiveVideoManager.captureFrame_reschedules (v : VideoTickInput)
    (cb : Bool) (c : Canvas) :
    (LiveVideoManager.captureFrame v cb c).2.2 = true := by
  rw [LiveVideoManager.captureFrame]
  by_cases h : (v.videoWidth > 0 && v.videoHeight > 0) = true
  · rw [if_pos h]
    cases cb <;> rfl
  · rw [if_neg h]

theorem LiveVideoManager.stopWebcam_loops (s : VideoManagerState) :
    (LiveVideoManager.stopWebcam s).loops = s.loops := by
  cases h : s.stream <;> simp [LiveVideoManager.stopWebcam, h]

theorem LiveScreenManager.stopCapture_stream (s : VideoManagerState) :
    (LiveScreenManager.stopCapture s).stream = none := by
  cases h : s.stream <;> simp [LiveScreenManager.stopCapture, h]

theorem LiveAudioInputManager.disconnectMicrophone_stream
    (s : AudioManagerState) :
    (LiveAudioInputManager.disconnectMicrophone s).stream = none := by
  cases h : s.stream <;> simp [LiveAudioInputManager.disconnectMicrophone, h]

theorem sum_liveTracks_eq_zero (g : List MediaStream)
    (h : g.countP MediaStream.isLive = 0) :
    (g.map MediaStream.liveTracks).sum = 0 := by
  apply List.sum_eq_zero
  intro x hx
  rw [List.mem_map] at hx
  obtain ⟨st, hst, rfl⟩ := hx
  apply MediaStream.liveTracks_eq_zero
  have := List.countP_eq_zero.mp h st hst
  simpa using this

/-!
Claims.
-/

/-- C2: `updateWebcamDevice` (resp. `updateMicrophoneDevice`) is exactly
`stop()` followed by `start(deviceId)` (resp. disconnect then connect);
when the subsequent acquisition fails the error propagates to the caller,
the component ends in the stopped state (stream handle cleared, display
binding cleared), and no new sampling loop is started (no retry). -/
theorem switchDevice_is_stop_then_start :
    (∀ res id s, LiveVideoManager.updateWebcamDevice res id s =
        LiveVideoManager.startWebcam res (some id)
          (LiveVideoManager.stopWebcam s))
    ∧ (∀ res id s, LiveAudioInputManager.updateMicrophoneDevice res id s =
        LiveAudioInputManager.connectMicrophone res (some id)
          (LiveAudioInputManager.disconnectMicrophone s))
    ∧ (∀ e id s, s.bindingConsistent →
        LiveVideoManager.updateWebcamDevice (Except.error e) id s =
          (LiveVideoManager.stopWebcam s, some e)
        ∧ (LiveVideoManager.updateWebcamDevice (Except.error e) id s).1.stream
            = none
        ∧ (LiveVideoManager.updateWebcamDevice (Except.error e) id s).1.srcObject
            = none
        ∧ (LiveVideoManager.updateWebcamDevice (Except.error e) id s).1.loops
            = s.loops)
    ∧ (∀ e id s,
        LiveAudioInputManager.updateMicrophoneDevice (Except.error e) id s =
          (LiveAudioInputManager.disconnectMicrophone s, some e)
        ∧ (LiveAudioInputManager.updateMicrophoneDevice
            (Except.error e) id s).1.stream = none)
    ∧ (∀ op s, s.bindingConsistent → (camStep op s).bindingConsistent) := by
  have hstop : ∀ s : VideoManagerState, s.bindingConsistent →
      (LiveVideoManager.stopWebcam s).bindingConsistent := by
    intro s h
    cases hs : s.stream with
    | none =>
        rw [VideoManagerState.bindingConsistent, hs] at h
        simpa [LiveVideoManager.stopWebcam, hs,
          VideoManagerState.bindingConsistent] using h
    | some st =>
        simp [LiveVideoManager.stopWebcam, hs,
          VideoManagerState.bindingConsistent]
  have hstart : ∀ (res : Except AcqError Nat) (id : Option DeviceId)
      (s : VideoManagerState), s.bindingConsistent →
      ((LiveVideoManager.startWebcam res id s).1).bindingConsistent := by
    intro res id s h
    cases res with
    | error e => exact h
    | ok n => rfl
  refine ⟨fun res id s => rfl, fun res id s => rfl, ?_, ?_, ?_⟩
  · intro e id s h
    refine ⟨rfl, LiveVideoManager.stopWebcam_stream s,
      LiveVideoManager.stopWebcam_srcObject s h,
      LiveVideoManager.stopWebcam_loops s⟩
  · intro e id s
    exact ⟨rfl, LiveAudioInputManager.disconnectMicrophone_stream s⟩
  · intro op s h
    cases op with
    | startOp res id => exact hstart res id s h
    | stopOp => exact hstop s h
    | updateOp res id => exact hstart res (some id) _ (hstop s h)

/-- C2 witness: the failure conjunct applied to a concrete error on the
freshly constructed manager. -/
theorem switchDevice_is_stop_then_start_witness :
    LiveVideoManager.updateWebcamDevice (Except.error AcqError.permissionDenied)
        "camA" VideoManagerState.init =
      (LiveVideoManager.stopWebcam VideoManagerState.init,
       some AcqError.permissionDenied)
    ∧ (LiveVideoManager.updateWebcamDevice
        (Except.error AcqError.permissionDenied) "camA"
        VideoManagerState.init).1.stream = none
    ∧ (LiveVideoManager.updateWebcamDevice
        (Except.error AcqError.permissionDenied) "camA"
        VideoManagerState.init).1.srcObject = none
    ∧ (LiveVideoManager.updateWebcamDevice
        (Except.error AcqError.permissionDenied) "camA"
        VideoManagerState.init).1.loops = VideoManagerState.init.loops :=
  switchDevice_is_stop_then_start.2.2.1 AcqError.permissionDenied "camA"
    VideoManagerState.init (by decide)

/-- C6: `stop()` is idempotent for every capture component: it is a total
no-op on an already stopped component, and a second consecutive `stop()`
leaves the state unchanged. -/
theorem stop_idempotent :
    (∀ s, LiveVideoManager.stopWebcam (LiveVideoManager.stopWebcam s) =
        LiveVideoManager.stopWebcam s)
    ∧ (∀ s, s.stream = none → LiveVideoManager.stopWebcam s = s)
    ∧ (∀ s, LiveScreenManager.stopCapture (LiveScreenManager.stopCapture s) =
        LiveScreenManager.stopCapture s)
    ∧ (∀ s, s.stream = none → LiveScreenManager.stopCapture s = s)
    ∧ (∀ s, LiveAudioInputManager.disconnectMicrophone
        (LiveAudioInputManager.disconnectMicrophone s) =
        LiveAudioInputManager.disconnectMicrophone s)
    ∧ (∀ s : AudioManagerState, s.stream = none →
        LiveAudioInputManager.disconnectMicrophone s = s) := by
  have hv : ∀ s : VideoManagerState, s.stream = none →
      LiveVideoManager.stopWebcam s = s := by
    intro s h
    rw [LiveVideoManager.stopWebcam, h]
  have hs : ∀ s : VideoManagerState, s.stream = none →
      LiveScreenManager.stopCapture s = s := by
    intro s h
    rw [LiveScreenManager.stopCapture, h]
  have ha : ∀ s : AudioManagerState, s.stream = none →
      LiveAudioInputManager.disconnectMicrophone s = s := by
    intro s h
    rw [LiveAudioInputManager.disconnectMicrophone, h]
  exact ⟨fun s => hv _ (LiveVideoManager.stopWebcam_stream s), hv,
    fun s => hs _ (LiveScreenManager.stopCapture_stream s), hs,
    fun s => ha _ (LiveAudioInputManager.disconnectMicrophone_stream s), ha⟩

/-- C6 witness: `stop()` on the freshly constructed (stopped) components
is a no-op. -/
theorem stop_idempotent_witness :
    LiveVideoManager.stopWebcam VideoManagerState.init = VideoManagerState.init
    ∧ LiveScreenManager.stopCapture VideoManagerState.init =
        VideoManagerState.init
    ∧ LiveAudioInputManager.disconnectMicrophone AudioManagerState.init =
        AudioManagerState.init :=
  ⟨stop_idempotent.2.1 VideoManagerState.init rfl,
   stop_idempotent.2.2.2.1 VideoManagerState.init rfl,
   stop_idempotent.2.2.2.2.2 AudioManagerState.init rfl⟩

/-- C7: with the frame callback cleared, any number of sampling ticks
delivers zero frames (and raises nothing: the tick function is total),
while every tick — with or without a callback, ready or not — reschedules
itself. -/
theorem cleared_callback_silent :
    (∀ ticks c, (LiveVideoManager.runTicks ticks false c).2 = [])
    ∧ (∀ v cb c, (LiveVideoManager.captureFrame v cb c).2.2 = true) := by
  constructor
  · intro ticks
    induction ticks with
    | nil => intro c; rfl
    | cons v rest ih =>
        intro c
        rw [LiveVideoManager.runTicks, LiveVideoManager.captureFrame_no_callback]
        simpa using ih _
  · exact LiveVideoManager.captureFrame_reschedules

/-- C10: the screen-capture variant has extensionally the same sampling
and teardown behavior as the webcam variant: tick for tick the same
canvas updates and frame deliveries, and the same teardown transition. -/
theorem screen_equals_video_behavior :
    (∀ v cb c, LiveScreenManager.captureFrame v cb c =
        LiveVideoManager.captureFrame v cb c)
    ∧ (∀ ticks cb c, LiveScreenManager.runTicks ticks cb c =
        LiveVideoManager.runTicks ticks cb c)
    ∧ (∀ s, LiveScreenManager.stopCapture s = LiveVideoManager.stopWebcam s) := by
  refine ⟨fun v cb c => rfl, ?_, fun s => rfl⟩
  intro ticks cb
  induction ticks with
  | nil => intro c; rfl
  | cons v rest ih =>
      intro c
      rw [LiveScreenManager.runTicks, LiveVideoManager.runTicks]
      have hcf : LiveScreenManager.captureFrame v cb c =
          LiveVideoManager.captureFrame v cb c := rfl
      rw [hcf]
      simp only [ih]

/-- C3: the sampler never encodes or delivers a frame on a tick whose
reported width or height is zero, and over the tick sequence
[not-ready, not-ready, ready] (with a callback registered) exactly one
frame is encoded and delivered, after the third tick and none before. -/
theorem sampler_zero_dimension_guard :
    (∀ v cb c, (v.videoWidth = 0 ∨ v.videoHeight = 0) →
        (LiveVideoManager.captureFrame v cb c).2.1 = [])
    ∧ (∀ v1 v2 v3 c, ¬ tickReady v1 → ¬ tickReady v2 → tickReady v3 →
        (LiveVideoManager.runTicks [v1, v2] true c).2 = []
        ∧ (LiveVideoManager.runTicks [v1, v2, v3] true c).2.length = 1) := by
  constructor
  · intro v cb c h
    have hnr : ¬ tickReady v := by
      rcases h with h | h <;> simp [tickReady, h]
    rw [LiveVideoManager.captureFrame_not_ready v cb c hnr]
  · intro v1 v2 v3 c h1 h2 h3
    constructor
    · rw [LiveVideoManager.runTicks,
        LiveVideoManager.captureFrame_not_ready v1 true c h1]
      simp only [LiveVideoManager.runTicks,
        LiveVideoManager.captureFrame_not_ready v2 true c h2]
      rfl
    · rw [LiveVideoManager.runTicks,
        LiveVideoManager.captureFrame_not_ready v1 true c h1]
      simp only [LiveVideoManager.runTicks,
        LiveVideoManager.captureFrame_not_ready v2 true c h2,
        LiveVideoManager.captureFrame_ready v3 c h3]
      rfl

/-- C3 witness: two zero-dimension ticks followed by a ready 2x2 tick
deliver exactly one frame, after the third tick. -/
theorem sampler_zero_dimension_guard_witness :
    (LiveVideoManager.runTicks [⟨0, 0, 0⟩, ⟨0, 5, 1⟩] true ⟨0, 0, none⟩).2 = []
    ∧ (LiveVideoManager.runTicks [⟨0, 0, 0⟩, ⟨0, 5, 1⟩, ⟨2, 2, 7⟩] true
        ⟨0, 0, none⟩).2.length = 1 :=
  sampler_zero_dimension_guard.2 ⟨0, 0, 0⟩ ⟨0, 5, 1⟩ ⟨2, 2, 7⟩ ⟨0, 0, none⟩
    (by decide) (by decide) (by decide)

/-- C5: from a quiescent component (nothing bound, nothing live — in
particular the freshly constructed one), a successful `start(id)` followed
immediately by `stop()` leaves zero live tracks, a cleared display
binding, and a null stream handle. -/
theorem start_then_stop_clean :
    ∀ (n : Nat) (id : Option DeviceId) (s : VideoManagerState),
      s.quiescent →
      (LiveVideoManager.stopWebcam
        (LiveVideoManager.startWebcam (Except.ok n) id s).1).liveTrackCount = 0
      ∧ (LiveVideoManager.stopWebcam
          (LiveVideoManager.startWebcam (Except.ok n) id s).1).srcObject = none
      ∧ (LiveVideoManager.stopWebcam
          (LiveVideoManager.startWebcam (Except.ok n) id s).1).stream = none := by
  intro n id s hq
  obtain ⟨hstream, hlive⟩ := hq
  have hcount : s.graveyard.countP MediaStream.isLive = 0 := by
    rw [VideoManagerState.liveStreamCount, hstream] at hlive
    omega
  have hstart : (LiveVideoManager.startWebcam (Except.ok n) id s).1 =
      { s with
          stream := some (MediaStream.fresh id n)
          srcObject := some (MediaStream.fresh id n)
          graveyard := s.graveyard
          loops := s.loops + 1 } := by
    rw [LiveVideoManager.startWebcam, hstream]
  rw [hstart]
  refine ⟨?_, rfl, rfl⟩
  rw [VideoManagerState.liveTrackCount]
  simp only [LiveVideoManager.stopWebcam, List.map_append, List.sum_append]
  rw [sum_liveTracks_eq_zero s.graveyard hcount]
  simp [MediaStream.stopTracks_liveTracks]

/-- C5 witness: starting the default camera on a fresh manager and
stopping it ends fully torn down. -/
theorem start_then_stop_clean_witness :
    (LiveVideoManager.stopWebcam
      (LiveVideoManager.startWebcam (Except.ok 2) (some "camA")
        VideoManagerState.init).1).liveTrackCount = 0
    ∧ (LiveVideoManager.stopWebcam
        (LiveVideoManager.startWebcam (Except.ok 2) (some "camA")
          VideoManagerState.init).1).srcObject = none
    ∧ (LiveVideoManager.stopWebcam
        (LiveVideoManager.startWebcam (Except.ok 2) (some "camA")
          VideoManagerState.init).1).stream = none :=
  start_then_stop_clean 2 (some "camA") VideoManagerState.init (by decide)

/-- C8: with the chunk callback registered, the audio graph delivers the
chunks in capture order, each delivered buffer being the unmodified
channel-0 sample buffer of its event, and each event carries the
configured fixed-size single-channel buffer (4096 samples). -/
theorem audio_chunks_in_order :
    (∀ c1 c2 c3 : AudioChunk,
        LiveAudioInputManager.runAudioEvents true
          [⟨[c1]⟩, ⟨[c2]⟩, ⟨[c3]⟩] = [c1, c2, c3])
    ∧ (∀ events, LiveAudioInputManager.runAudioEvents true events =
        events.map fun e => e.getChannelData 0)
    ∧ (∀ events,
        (∀ e ∈ events,
          (e.getChannelData 0).length = scriptProcessorBufferSize) →
        ∀ ch ∈ LiveAudioInputManager.runAudioEvents true events,
          ch.length = scriptProcessorBufferSize)
    ∧ scriptProcessorInputChannels = 1 := by
  have hmap : ∀ events, LiveAudioInputManager.runAudioEvents true events =
      events.map fun e => e.getChannelData 0 := by
    intro events
    induction events with
    | nil => rfl
    | cons e rest ih =>
        rw [LiveAudioInputManager.runAudioEvents,
          LiveAudioInputManager.onaudioprocess, if_pos rfl, List.map_cons, ih]
        rfl
  refine ⟨?_, hmap, ?_, rfl⟩
  · intro c1 c2 c3
    rw [hmap]
    rfl
  · intro events hlen ch hch
    rw [hmap, List.mem_map] at hch
    obtain ⟨e, he, rfl⟩ := hch
    exact hlen e he

/-- C8 witness: a single full-size event is delivered with its buffer
length equal to the configured chunk size. -/
theorem audio_chunks_in_order_witness :
    (List.replicate scriptProcessorBufferSize (0 : Int)).length =
      scriptProcessorBufferSize :=
  audio_chunks_in_order.2.2.1
    [⟨[List.replicate scriptProcessorBufferSize 0]⟩]
    (by
      intro e he
      simp only [List.mem_singleton] at he
      subst he
      simp [AudioProcessEvent.getChannelData])
    (List.replicate scriptProcessorBufferSize 0)
    (by
      simp [LiveAudioInputManager.runAudioEvents,
        LiveAudioInputManager.onaudioprocess,
        AudioProcessEvent.getChannelData])

theorem camStep_loops (op : CamOp) (s : VideoManagerState) :
    (camStep op s).loops = s.loops + op.startsLoop := by
  cases op with
  | startOp res id => cases res <;> rfl
  | stopOp =>
      show (LiveVideoManager.stopWebcam s).loops = s.loops + 0
      rw [Nat.add_zero]
      exact LiveVideoManager.stopWebcam_loops s
  | updateOp res id =>
      cases res with
      | error e =>
          show (LiveVideoManager.stopWebcam s).loops = s.loops + 0
          rw [Nat.add_zero]
          exact LiveVideoManager.stopWebcam_loops s
      | ok n =>
          show (LiveVideoManager.stopWebcam s).loops + 1 = s.loops + 1
          rw [LiveVideoManager.stopWebcam_loops]

/-- C9: every successful start spawns one more self-rescheduling sampling
loop and no operation ever cancels one — after any operation sequence the
number of live loops is exactly the number of successful starts performed
— every tick reschedules itself, and on a display tick with a ready
source and a registered callback each of the `k` loops encodes and
delivers a frame, so `k` frames go out per display tick. -/
theorem sampling_loops_accumulate :
    (∀ ops s, (runCamOps ops s).loops = s.loops + successfulStarts ops)
    ∧ (∀ v cb c, (LiveVideoManager.captureFrame v cb c).2.2 = true)
    ∧ (∀ v n c, tickReady v →
        ((LiveVideoManager.displayTick v true n c).2).length = n) := by
  refine ⟨?_, LiveVideoManager.captureFrame_reschedules, ?_⟩
  · intro ops
    induction ops with
    | nil => intro s; rfl
    | cons op rest ih =>
        intro s
        rw [runCamOps, ih, camStep_loops]
        simp only [successfulStarts, List.map_cons, List.sum_cons]
        omega
  · intro v n
    induction n with
    | zero => intro c _; rfl
    | succ k ih =>
        intro c h
        rw [LiveVideoManager.displayTick,
          LiveVideoManager.captureFrame_ready v c h]
        simp only [List.length_append, ih _ h, List.length_singleton]
        omega

/-- C9 witness: three concurrent loops deliver three frames on one ready
display tick. -/
theorem sampling_loops_accumulate_witness :
    ((LiveVideoManager.displayTick ⟨2, 2, 7⟩ true 3 ⟨0, 0, none⟩).2).length = 3 :=
  sampling_loops_accumulate.2.2 ⟨2, 2, 7⟩ 3 ⟨0, 0, none⟩ (by decide)

theorem LiveVideoManager.stopWebcam_graveyardDead (s : VideoManagerState)
    (h : s.graveyardDead = true) :
    (LiveVideoManager.stopWebcam s).graveyardDead = true := by
  cases hs : s.stream with
  | none => simpa [LiveVideoManager.stopWebcam, hs] using h
  | some st =>
      simp only [VideoManagerState.graveyardDead] at h
      simp [LiveVideoManager.stopWebcam, hs, VideoManagerState.graveyardDead,
        List.all_append, h, MediaStream.stopTracks_isLive]

theorem LiveScreenManager.stopCapture_graveyardDead (s : VideoManagerState)
    (h : s.graveyardDead = true) :
    (LiveScreenManager.stopCapture s).graveyardDead = true := by
  cases hs : s.stream with
  | none => simpa [LiveScreenManager.stopCapture, hs] using h
  | some st =>
      simp only [VideoManagerState.graveyardDead] at h
      simp [LiveScreenManager.stopCapture, hs, VideoManagerState.graveyardDead,
        List.all_append, h, MediaStream.stopTracks_isLive]

theorem LiveAudioInputManager.disconnectMicrophone_graveyardDead
    (s : AudioManagerState) (h : s.graveyardDead = true) :
    (LiveAudioInputManager.disconnectMicrophone s).graveyardDead = true := by
  cases hs : s.stream with
  | none => simpa [LiveAudioInputManager.disconnectMicrophone, hs] using h
  | some st =>
      simp only [AudioManagerState.graveyardDead] at h
      simp [LiveAudioInputManager.disconnectMicrophone, hs,
        AudioManagerState.graveyardDead, List.all_append, h,
        MediaStream.stopTracks_isLive]

/-- Manager state after `startWebcam(idA)` directly followed by
`startWebcam(idB)` with no intervening stop, both acquisitions granted
with one track each. -/
def doubleStartState : VideoManagerState :=
  (LiveVideoManager.startWebcam (Except.ok 1) (some "camB")
    (LiveVideoManager.startWebcam (Except.ok 1) (some "camA")
      VideoManagerState.init).1).1

/-- C1 counterexample: after `start(idA)` directly followed by
`start(idB)` the manager has two simultaneously live streams — `idA`'s
stream handle is overwritten without its tracks ever being stopped — so
the at-most-one-live invariant fails for that operation sequence. -/
theorem doubleStart_two_live :
    ¬ doubleStartState.liveStreamCount ≤ 1 := by decide

/-- C1 (amended): for each DeviceCapture instance — `LiveVideoManager`,
`LiveScreenManager` and `LiveAudioInputManager` — the at-most-one-live
invariant holds provided every acquisition is preceded by full teardown
of the held stream, i.e. along sequences of `stop` and switch operations
(`updateWebcamDevice`, stop-then-`startCapture`,
`updateMicrophoneDevice`): the graveyard of dropped streams stays fully
dead, so at most the currently bound stream is live, and at the
acquisition point of a switch (after its `stop`) every stream the
instance ever acquired is torn down.  A raw `start` on a running manager
instead leaks the held stream live (see the counterexample). -/
theorem capture_single_live_on_switch :
    (∀ ops s, (∀ op ∈ ops, op.safe = true) →
        s.graveyardDead = true → (runCamOps ops s).graveyardDead = true)
    ∧ (∀ s : VideoManagerState, s.graveyardDead = true →
        s.liveStreamCount ≤ 1)
    ∧ (∀ s : VideoManagerState, s.graveyardDead = true →
        (LiveVideoManager.stopWebcam s).liveStreamCount = 0)
    ∧ (∀ res id s, LiveVideoManager.updateWebcamDevice res id s =
        LiveVideoManager.startWebcam res (some id)
          (LiveVideoManager.stopWebcam s))
    ∧ (∀ ops s, (∀ op ∈ ops, op.safe = true) →
        s.graveyardDead = true → (runScreenOps ops s).graveyardDead = true)
    ∧ (∀ s : VideoManagerState, s.graveyardDead = true →
        (LiveScreenManager.stopCapture s).liveStreamCount = 0)
    ∧ (∀ ops s, (∀ op ∈ ops, op.safe = true) →
        s.graveyardDead = true → (runAudioOps ops s).graveyardDead = true)
    ∧ (∀ s : AudioManagerState, s.graveyardDead = true →
        s.liveStreamCount ≤ 1)
    ∧ (∀ s : AudioManagerState, s.graveyardDead = true →
        (LiveAudioInputManager.disconnectMicrophone s).liveStreamCount = 0)
    ∧ (∀ res id s, LiveAudioInputManager.updateMicrophoneDevice res id s =
        LiveAudioInputManager.connectMicrophone res (some id)
          (LiveAudioInputManager.disconnectMicrophone s)) := by
  have hstartV : ∀ (res : Except AcqError Nat) (id : Option DeviceId)
      (s : VideoManagerState), s.stream = none → s.graveyardDead = true →
      ((LiveVideoManager.startWebcam res id s).1).graveyardDead = true := by
    intro res id s hs h
    cases res with
    | error e => exact h
    | ok n =>
        simp only [LiveVideoManager.startWebcam, hs]
        exact h
  have hstepV : ∀ (op : CamOp) (s : VideoManagerState), op.safe = true →
      s.graveyardDead = true → (camStep op s).graveyardDead = true := by
    intro op s hsafe h
    cases op with
    | startOp res id => exact absurd hsafe (by simp [CamOp.safe])
    | stopOp => exact LiveVideoManager.stopWebcam_graveyardDead s h
    | updateOp res id =>
        exact hstartV res (some id) _ (LiveVideoManager.stopWebcam_stream s)
          (LiveVideoManager.stopWebcam_graveyardDead s h)
  have hstartS : ∀ (res : Except AcqError Nat) (s : VideoManagerState),
      s.stream = none → s.graveyardDead = true →
      ((LiveScreenManager.startCapture res s).1).graveyardDead = true := by
    intro res s hs h
    cases res with
    | error e => exact h
    | ok n =>
        simp only [LiveScreenManager.startCapture, hs]
        exact h
  have hstepS : ∀ (op : ScreenOp) (s : VideoManagerState), op.safe = true →
      s.graveyardDead = true → (screenStep op s).graveyardDead = true := by
    intro op s hsafe h
    cases op with
    | startOp res => exact absurd hsafe (by simp [ScreenOp.safe])
    | stopOp => exact LiveScreenManager.stopCapture_graveyardDead s h
    | switchOp res =>
        exact hstartS res _ (LiveScreenManager.stopCapture_stream s)
          (LiveScreenManager.stopCapture_graveyardDead s h)
  have hstartA : ∀ (res : Except AcqError Nat) (id : Option DeviceId)
      (s : AudioManagerState), s.stream = none → s.graveyardDead = true →
      ((LiveAudioInputManager.connectMicrophone res id s).1).graveyardDead
        = true := by
    intro res id s hs h
    cases res with
    | error e => exact h
    | ok n =>
        simp only [LiveAudioInputManager.connectMicrophone, hs]
        exact h
  have hstepA : ∀ (op : AudioOp) (s : AudioManagerState), op.safe = true →
      s.graveyardDead = true → (audioStep op s).graveyardDead = true := by
    intro op s hsafe h
    cases op with
    | connectOp res id => exact absurd hsafe (by simp [AudioOp.safe])
    | stopOp => exact LiveAudioInputManager.disconnectMicrophone_graveyardDead s h
    | updateOp res id =>
        exact hstartA res (some id) _
          (LiveAudioInputManager.disconnectMicrophone_stream s)
          (LiveAudioInputManager.disconnectMicrophone_graveyardDead s h)
  refine ⟨?_, ?_, ?_, fun res id s => rfl, ?_, ?_, ?_, ?_, ?_,
    fun res id s => rfl⟩
  · intro ops
    induction ops with
    | nil => intro s _ h; exact h
    | cons op rest ih =>
        intro s hsafe h
        rw [runCamOps]
        exact ih _ (fun o ho => hsafe o (List.mem_cons_of_mem op ho))
          (hstepV op s (hsafe op (List.mem_cons_self op rest)) h)
  · intro s h
    rw [VideoManagerState.liveStreamCount,
      countP_isLive_eq_zero s.graveyard h]
    cases s.stream with
    | none => simp
    | some st =>
        by_cases hl : st.isLive = true <;> simp [hl]
  · intro s h
    cases hs : s.stream with
    | none =>
        simp only [LiveVideoManager.stopWebcam, hs]
        rw [VideoManagerState.liveStreamCount,
          countP_isLive_eq_zero s.graveyard h, hs]
        simp
    | some st =>
        simp only [LiveVideoManager.stopWebcam, hs]
        rw [VideoManagerState.liveStreamCount]
        simp only [List.countP_append]
        rw [countP_isLive_eq_zero s.graveyard h]
        simp [List.countP_cons, MediaStream.stopTracks_isLive,
          MediaStream.isLive, MediaStream.stopTracks]
  · intro ops
    induction ops with
    | nil => intro s _ h; exact h
    | cons op rest ih =>
        intro s hsafe h
        rw [runScreenOps]
        exact ih _ (fun o ho => hsafe o (List.mem_cons_of_mem op ho))
          (hstepS op s (hsafe op (List.mem_cons_self op rest)) h)
  · intro s h
    cases hs : s.stream with
    | none =>
        simp only [LiveScreenManager.stopCapture, hs]
        rw [VideoManagerState.liveStreamCount,
          countP_isLive_eq_zero s.graveyard h, hs]
        simp
    | some st =>
        simp only [LiveScreenManager.stopCapture, hs]
        rw [VideoManagerState.liveStreamCount]
        simp only [List.countP_append]
        rw [countP_isLive_eq_zero s.graveyard h]
        simp [List.countP_cons, MediaStream.stopTracks_isLive,
          MediaStream.isLive, MediaStream.stopTracks]
  · intro ops
    induction ops with
    | nil => intro s _ h; exact h
    | cons op rest ih =>
        intro s hsafe h
        rw [runAudioOps]
        exact ih _ (fun o ho => hsafe o (List.mem_cons_of_mem op ho))
          (hstepA op s (hsafe op (List.mem_cons_self op rest)) h)
  · intro s h
    rw [AudioManagerState.liveStreamCount,
      countP_isLive_eq_zero s.graveyard h]
    cases s.stream with
    | none => simp
    | some st =>
        by_cases hl : st.isLive = true <;> simp [hl]
  · intro s h
    cases hs : s.stream with
    | none =>
        simp only [LiveAudioInputManager.disconnectMicrophone, hs]
        rw [AudioManagerState.liveStreamCount,
          countP_isLive_eq_zero s.graveyard h, hs]
        simp
    | some st =>
        simp only [LiveAudioInputManager.disconnectMicrophone, hs]
        rw [AudioManagerState.liveStreamCount]
        simp only [List.countP_append]
        rw [countP_isLive_eq_zero s.graveyard h]
        simp [List.countP_cons, MediaStream.stopTracks_isLive,
          MediaStream.isLive, MediaStream.stopTracks]

/-- C1 witness: each of the three managers, driven from its constructor
state through a device switch and a stop, keeps every dropped stream
dead, and teardown before acquisition is complete at the acquisition
point. -/
theorem capture_single_live_on_switch_witness :
    (runCamOps [CamOp.updateOp (Except.ok 1) "camB", CamOp.stopOp]
      VideoManagerState.init).graveyardDead = true
    ∧ VideoManagerState.init.liveStreamCount ≤ 1
    ∧ (LiveVideoManager.stopWebcam
        VideoManagerState.init).liveStreamCount = 0
    ∧ (runScreenOps [ScreenOp.switchOp (Except.ok 1), ScreenOp.stopOp]
        VideoManagerState.init).graveyardDead = true
    ∧ (LiveScreenManager.stopCapture
        VideoManagerState.init).liveStreamCount = 0
    ∧ (runAudioOps [AudioOp.updateOp (Except.ok 1) "micB", AudioOp.stopOp]
        AudioManagerState.init).graveyardDead = true
    ∧ AudioManagerState.init.liveStreamCount ≤ 1
    ∧ (LiveAudioInputManager.disconnectMicrophone
        AudioManagerState.init).liveStreamCount = 0 :=
  ⟨capture_single_live_on_switch.1
      [CamOp.updateOp (Except.ok 1) "camB", CamOp.stopOp]
      VideoManagerState.init (by decide) (by decide),
   capture_single_live_on_switch.2.1 VideoManagerState.init (by decide),
   capture_single_live_on_switch.2.2.1 VideoManagerState.init (by decide),
   capture_single_live_on_switch.2.2.2.2.1
      [ScreenOp.switchOp (Except.ok 1), ScreenOp.stopOp]
      VideoManagerState.init (by decide) (by decide),
   capture_single_live_on_switch.2.2.2.2.2.1 VideoManagerState.init
      (by decide),
   capture_single_live_on_switch.2.2.2.2.2.2.1
      [AudioOp.updateOp (Except.ok 1) "micB", AudioOp.stopOp]
      AudioManagerState.init (by decide) (by decide),
   capture_single_live_on_switch.2.2.2.2.2.2.2.1 AudioManagerState.init
      (by decide),
   capture_single_live_on_switch.2.2.2.2.2.2.2.2.1 AudioManagerState.init
      (by decide)⟩

/-- Application state reached by enabling screen share and then choosing
a camera in the device selector, both acquisitions granted. -/
def camSelectDuringScreenShare : AppState :=
  appRun [AppAction.screenBtn (Except.ok 1),
          AppAction.cameraSelect (Except.ok 1) "camA"] appInit

/-- C4 counterexample: a reachable coordinator state has both video
sources live simultaneously — the camera-device selection handler starts
the webcam without stopping the active screen share. -/
theorem both_sources_live_reachable :
    AppReachable camSelectDuringScreenShare
    ∧ camSelectDuringScreenShare.cam.sourceLive = true
    ∧ camSelectDuringScreenShare.screen.sourceLive = true := by
  refine ⟨?_, by decide, by decide⟩
  exact AppReachable.step (AppAction.cameraSelect (Except.ok 1) "camA")
    (AppReachable.step (AppAction.screenBtn (Except.ok 1)) AppReachable.init)

/-- C4 (amended): `startCameraCapture` stops the screen source before the
camera acquisition begins and `startScreenCapture` stops the camera
first; hence along button-driven runs (camera/screen buttons only) the
two managers never simultaneously hold a bound stream.  The claim's full
no-dual-live invariant over all coordinator actions fails, because the
camera-device selection handler starts the webcam without stopping the
screen share (see the counterexample). -/
theorem buttons_mutually_exclusive :
    (∀ res s, (startCameraCapture res s).screen =
        LiveScreenManager.stopCapture s.screen)
    ∧ (∀ res s, (startScreenCapture res s).cam =
        LiveVideoManager.stopWebcam s.cam)
    ∧ (∀ res s, (startCameraCapture res s).screen.stream = none)
    ∧ (∀ res s, (startScreenCapture res s).cam.stream = none)
    ∧ (∀ acts s, (∀ a ∈ acts, a.isBtn = true) →
        ¬(s.cam.stream ≠ none ∧ s.screen.stream ≠ none) →
        ¬((appRun acts s).cam.stream ≠ none
          ∧ (appRun acts s).screen.stream ≠ none)) := by
  refine ⟨fun res s => rfl, fun res s => rfl,
    fun res s => LiveScreenManager.stopCapture_stream s.screen,
    fun res s => LiveVideoManager.stopWebcam_stream s.cam, ?_⟩
  intro acts
  induction acts with
  | nil => intro s _ h; exact h
  | cons a rest ih =>
      intro s hbtn h
      rw [appRun]
      refine ih _ (fun o ho => hbtn o (List.mem_cons_of_mem a ho)) ?_
      cases a with
      | cameraBtn res =>
          intro hc
          exact hc.2 (LiveScreenManager.stopCapture_stream s.screen)
      | screenBtn res =>
          intro hc
          exact hc.1 (LiveVideoManager.stopWebcam_stream s.cam)
      | cameraSelect res id =>
          exact absurd (hbtn _ (List.mem_cons_self _ rest)) (by simp [AppAction.isBtn])

/-- C4 witness: one camera-button press from the page-load state keeps
the bound-stream slots mutually exclusive. -/
theorem buttons_mutually_exclusive_witness :
    ¬((appRun [AppAction.cameraBtn (Except.ok 1)] appInit).cam.stream ≠ none
      ∧ (appRun [AppAction.cameraBtn (Except.ok 1)]
          appInit).screen.stream ≠ none) :=
  buttons_mutually_exclusive.2.2.2.2 [AppAction.cameraBtn (Except.ok 1)]
    appInit (by decide) (by decide)
